import Mathlib

/-!
Shallow embedding of the `manifestation_wall` Solana/Anchor program
(src/programs/manifest-sol/src/lib.rs) and proofs of its specification
claims.

Modelling conventions:
* a `Pubkey` (32-byte public key) is a natural number;
* lamport balances are natural numbers; u64 overflow of the system
  transfer is modelled explicitly against `U64_MOD`;
* a message (Rust `String`) is modelled by its UTF-8 byte list, so that
  Rust `message.len()` is `message.length`;
* PDA hashing (`Pubkey::find_program_address` /
  `Pubkey::create_program_address`) is parametrised by an abstract map
  `H` from seed lists to an optional address (`none` models an
  on-curve/invalid result), since the SHA-256 internals are irrelevant
  to the claims; the bump search loop (255 down to 0) is modelled
  exactly;
* `Clock::get()` is modelled by an `Option Int` input (`none` = failure);
* the host runtime's transaction atomicity (all lamport changes are
  rolled back and events discarded when the instruction returns an
  error) is modelled by the `commit` functions.
-/

namespace ManifestWall

/-- 32-byte public key, modelled as a natural number. -/
abbrev Pubkey : Type := Nat

/-- Modulus of the 64-bit unsigned lamport arithmetic. -/
def U64_MOD : Nat := 2 ^ 64

/-- Constants used throughout the program (`pub mod constants`). -/
def MESSAGE_FEE_LAMPORTS : Nat := 50000000

/-- Maximum length allowed for messages. -/
def MAX_MESSAGE_LENGTH : Nat := 500

/-- Buffer for transaction fees (0.001 SOL). -/
def TRANSACTION_FEE_BUFFER : Nat := 1000000

/-- The `Wall` account state: `{ dev_wallet: Pubkey, wall_id: u64, bump: u8 }`. -/
structure Wall where
  dev_wallet : Pubkey
  wall_id : Nat
  bump : Nat
deriving DecidableEq

/-- The `WallInitialized` event: `{ wall_id: u64, dev_wallet: Pubkey }`. -/
structure WallInitialized where
  wall_id : Nat
  dev_wallet : Pubkey
deriving DecidableEq

/-- The `MessagePosted` event:
`{ wall_id: u64, user: Pubkey, message: String, timestamp: i64 }`. -/
structure MessagePosted where
  wall_id : Nat
  user : Pubkey
  message : List Nat
  timestamp : Int
deriving DecidableEq

/-- The program's custom error enum `WallError`, in declaration order. -/
inductive WallError where
  | EmptyMessage
  | MessageTooLong
  | InsufficientFunds
  | InvalidDevWallet
deriving DecidableEq

/-- Anchor assigns custom error numbers starting at this base (6000). -/
def errorCodeBase : Nat := 6000

/-- The numeric code of each `WallError` variant: Anchor's `#[error_code]`
numbers the variants consecutively, in declaration order, from the base. -/
def WallError.code : WallError → Nat
  | .EmptyMessage => errorCodeBase
  | .MessageTooLong => errorCodeBase + 1
  | .InsufficientFunds => errorCodeBase + 2
  | .InvalidDevWallet => errorCodeBase + 3

/-- Errors the `post_message` handler body can surface: a custom
`WallError` from a `require!`, a failure of the transfer CPI (`?` on
`system_program::transfer`), or a failure of `Clock::get()?`. -/
inductive PostError where
  | wall (e : WallError)
  | transferFailed
  | clockFailed
deriving DecidableEq

/-- The system program's transfer primitive: moves `amount` lamports from
`fromLamports` to `toLamports`; fails when the source balance is
insufficient or the destination balance would overflow u64. -/
def systemTransfer (fromLamports toLamports amount : Nat) : Option (Nat × Nat) :=
  if fromLamports < amount then none
  else if U64_MOD ≤ toLamports + amount then none
  else some (fromLamports - amount, toLamports + amount)

deriving instance DecidableEq for Except

/-- Outcome of running the `post_message` handler body: the returned
`Result` together with the lamport balances of the `user` and
`dev_wallet` accounts and the wall account data as they stand when the
handler returns (mutations made before a late failure are visible here;
the runtime rollback is applied separately by `postMessageCommit`). -/
structure PostResult where
  result : Except PostError MessagePosted
  userLamports : Nat
  devLamports : Nat
  wall : Wall
deriving DecidableEq

/-- The `post_message` handler body (lib.rs lines 71-106), step by step:
1. `require!(message.len() > 0, WallError::EmptyMessage)`
2. `require!(message.len() <= MAX_MESSAGE_LENGTH, WallError::MessageTooLong)`
3. `require!(dev_wallet.key() == wall.dev_wallet, WallError::InvalidDevWallet)`
4. `require!(user.lamports() >= MESSAGE_FEE_LAMPORTS + TRANSACTION_FEE_BUFFER, WallError::InsufficientFunds)`
5. `system_program::transfer(cpi_ctx, MESSAGE_FEE_LAMPORTS)?`
6. `Clock::get()?` and `emit!(MessagePosted { wall.wall_id, user.key(), message, clock.unix_timestamp })`. -/
def post_message (wall : Wall) (userKey : Pubkey) (userLamports : Nat)
    (devKey : Pubkey) (devLamports : Nat) (message : List Nat)
    (clock : Option Int) : PostResult :=
  if ¬ (0 < message.length) then
    ⟨.error (.wall .EmptyMessage), userLamports, devLamports, wall⟩
  else if ¬ (message.length ≤ MAX_MESSAGE_LENGTH) then
    ⟨.error (.wall .MessageTooLong), userLamports, devLamports, wall⟩
  else if ¬ (devKey = wall.dev_wallet) then
    ⟨.error (.wall .InvalidDevWallet), userLamports, devLamports, wall⟩
  else if ¬ (MESSAGE_FEE_LAMPORTS + TRANSACTION_FEE_BUFFER ≤ userLamports) then
    ⟨.error (.wall .InsufficientFunds), userLamports, devLamports, wall⟩
  else
    match systemTransfer userLamports devLamports MESSAGE_FEE_LAMPORTS with
    | none => ⟨.error .transferFailed, userLamports, devLamports, wall⟩
    | some (u, d) =>
      match clock with
      | none => ⟨.error .clockFailed, u, d, wall⟩
      | some t => ⟨.ok ⟨wall.wall_id, userKey, message, t⟩, u, d, wall⟩

/-- The on-ledger state and event log observed after the transaction that
carried the instruction settles. -/
structure PostCommitted where
  userLamports : Nat
  devLamports : Nat
  wall : Wall
  events : List MessagePosted
deriving DecidableEq

/-- Transaction-level semantics of `post_message`: the host runtime
commits the handler's effects and its emitted event only when the
handler returns `Ok`; on any error every lamport change is rolled back
and no event reaches the event sink. -/
def postMessageCommit (wall : Wall) (userKey : Pubkey) (userLamports : Nat)
    (devKey : Pubkey) (devLamports : Nat) (message : List Nat)
    (clock : Option Int) : PostCommitted :=
  let r := post_message wall userKey userLamports devKey devLamports message clock
  match r.result with
  | .ok ev => ⟨r.userLamports, r.devLamports, r.wall, [ev]⟩
  | .error _ => ⟨userLamports, devLamports, wall, []⟩

/-- Little-endian byte expansion of a natural number to `len` bytes. -/
def leBytes (n len : Nat) : List Nat :=
  (List.range len).map (fun i => n / 256 ^ i % 256)

/-- The 32 bytes of a public key (`key().as_ref()`). -/
def pubkeyToBytes (k : Pubkey) : List Nat := leBytes k 32

/-- The 8 little-endian bytes of a u64 (`wall_id.to_le_bytes()`). -/
def u64ToLeBytes (n : Nat) : List Nat := leBytes n 8

/-- The domain-separation seed `b"wall"`, as its UTF-8 bytes. -/
def WALL_SEED : List Nat := "wall".data.map Char.toNat

/-- The seed list used to derive a wall's PDA:
`[b"wall", dev_wallet.key().as_ref(), &wall_id.to_le_bytes()]`. -/
def wallSeeds (owner : Pubkey) (wallId : Nat) : List (List Nat) :=
  [WALL_SEED, pubkeyToBytes owner, u64ToLeBytes wallId]

/-- `Pubkey::create_program_address` with the bump appended as one extra
single-byte seed, abstracted over the hash-to-address map `H` (`none`
models an on-curve, hence invalid, result). -/
def createProgramAddress (H : List (List Nat) → Option Nat)
    (seeds : List (List Nat)) (bump : Nat) : Option Nat :=
  H (seeds ++ [[bump]])

/-- The bump search of `Pubkey::find_program_address`: `fuel = b + 1`
tries bump `b`, then `b - 1`, and so on down to `0`. -/
def findProgramAddressAux (H : List (List Nat) → Option Nat)
    (seeds : List (List Nat)) : Nat → Option (Nat × Nat)
  | 0 => none
  | b + 1 =>
    match createProgramAddress H seeds b with
    | some addr => some (addr, b)
    | none => findProgramAddressAux H seeds b

/-- `Pubkey::find_program_address`: search bumps 255, 254, ..., 0 and
return the first valid derived address together with its bump. -/
def findProgramAddress (H : List (List Nat) → Option Nat)
    (seeds : List (List Nat)) : Option (Nat × Nat) :=
  findProgramAddressAux H seeds 256

/-- The Anchor account constraint on `PostMessage.wall`
(`seeds = [b"wall", wall.dev_wallet.as_ref(), &wall.wall_id.to_le_bytes()],
bump = wall.bump`): one `create_program_address` call at the stored bump,
whose result must equal the address of the supplied wall account. -/
def postWallAddressCheck (H : List (List Nat) → Option Nat)
    (wall : Wall) (wallAddr : Nat) : Bool :=
  createProgramAddress H (wallSeeds wall.dev_wallet wall.wall_id) wall.bump == some wallAddr

/-- Errors of the full `PostMessage` instruction: Anchor's account
validation errors (in the order the accounts are declared) followed by
the handler's own errors. -/
inductive AnchorPostError where
  | constraintSeeds
  | constraintSigner
  | constraintAddress
  | program (e : PostError)
deriving DecidableEq

/-- Outcome of the full `PostMessage` instruction (validation + handler). -/
structure PostFullResult where
  result : Except AnchorPostError MessagePosted
  userLamports : Nat
  devLamports : Nat
  wall : Wall
deriving DecidableEq

/-- The full `PostMessage` instruction: Anchor first validates the
accounts in declaration order — the `wall` PDA seeds/bump check, the
`user` signer check, then the `dev_wallet` constraint
`address = wall.dev_wallet` — and only then runs the `post_message`
handler body. -/
def postMessageFull (H : List (List Nat) → Option Nat) (wallAddr : Nat)
    (wall : Wall) (userIsSigner : Bool) (userKey : Pubkey)
    (userLamports : Nat) (devKey : Pubkey) (devLamports : Nat)
    (message : List Nat) (clock : Option Int) : PostFullResult :=
  if ¬ postWallAddressCheck H wall wallAddr then
    ⟨.error .constraintSeeds, userLamports, devLamports, wall⟩
  else if ¬ userIsSigner then
    ⟨.error .constraintSigner, userLamports, devLamports, wall⟩
  else if ¬ (devKey = wall.dev_wallet) then
    ⟨.error .constraintAddress, userLamports, devLamports, wall⟩
  else
    let r := post_message wall userKey userLamports devKey devLamports message clock
    ⟨r.result.mapError .program, r.userLamports, r.devLamports, r.wall⟩

/-- The `initialize_wall` handler body (lib.rs lines 36-51): store the
dev wallet key, the wall id and the bump Anchor found, and emit
`WallInitialized { wall_id, dev_wallet }`. -/
def initialize_wall (devWallet : Pubkey) (wallId bump : Nat) :
    Wall × WallInitialized :=
  (⟨devWallet, wallId, bump⟩, ⟨wallId, devWallet⟩)

/-- The full `InitializeWall` instruction: Anchor derives the wall PDA
with `find_program_address` over
`[b"wall", dev_wallet.key().as_ref(), &wall_id.to_le_bytes()]` (the
`init` constraint), records the found bump in `ctx.bumps.wall`, and the
handler then fills the account and emits the event. Returns the derived
address, the stored wall record, and the emitted event. -/
def initializeWallFull (H : List (List Nat) → Option Nat)
    (devWallet : Pubkey) (wallId : Nat) :
    Option (Nat × Wall × WallInitialized) :=
  match findProgramAddress H (wallSeeds devWallet wallId) with
  | none => none
  | some (addr, bump) => some (addr, initialize_wall devWallet wallId bump)

/-!  Theorems for the specification claims. -/

/-- C8: the program's constants have exactly the values
`MESSAGE_FEE = 50,000,000`, `MAX_MESSAGE_LENGTH = 500`, and
`TX_FEE_BUFFER = 1,000,000`. -/
theorem constants_exact_values :
    MESSAGE_FEE_LAMPORTS = 50000000 ∧ MAX_MESSAGE_LENGTH = 500 ∧
      TRANSACTION_FEE_BUFFER = 1000000 :=
  ⟨rfl, rfl, rfl⟩

/-- C9: the four custom error codes are numbered consecutively from the
implementation's base, in the order `EmptyMessage = base`,
`MessageTooLong = base + 1`, `InsufficientFunds = base + 2`,
`InvalidDevWallet = base + 3`. -/
theorem error_codes_consecutive :
    WallError.code .EmptyMessage = errorCodeBase ∧
      WallError.code .MessageTooLong = errorCodeBase + 1 ∧
      WallError.code .InsufficientFunds = errorCodeBase + 2 ∧
      WallError.code .InvalidDevWallet = errorCodeBase + 3 :=
  ⟨rfl, rfl, rfl, rfl⟩

/-- C10: `PostMessage` never writes to the `Wall` record: for every
invocation of the handler and of the full instruction, successful or
not, the wall account data after the call equals its value before the
call, even though the wall account is declared writable. -/
theorem post_message_wall_unchanged (H : List (List Nat) → Option Nat)
    (wallAddr : Nat) (wall : Wall) (userIsSigner : Bool) (userKey : Pubkey)
    (userLamports : Nat) (devKey : Pubkey) (devLamports : Nat)
    (message : List Nat) (clock : Option Int) :
    (post_message wall userKey userLamports devKey devLamports message
        clock).wall = wall ∧
      (postMessageFull H wallAddr wall userIsSigner userKey userLamports
        devKey devLamports message clock).wall = wall := by
  constructor
  · unfold post_message
    split_ifs <;>
      first
        | rfl
        | · cases hT : systemTransfer userLamports devLamports MESSAGE_FEE_LAMPORTS with
            | none => rfl
            | some ud =>
              obtain ⟨u, d⟩ := ud
              cases clock <;> rfl
  · unfold postMessageFull
    split_ifs <;>
      first
        | rfl
        | · unfold post_message
            split_ifs <;>
              first
                | rfl
                | · cases hT : systemTransfer userLamports devLamports MESSAGE_FEE_LAMPORTS with
                    | none => rfl
                    | some ud =>
                      obtain ⟨u, d⟩ := ud
                      cases clock <;> rfl

/-! Case-characterisation lemmas for `post_message`: one lemma per
control-flow regime of the handler, used by several claim proofs. -/

section Characterisation

variable (wall : Wall) (userKey : Pubkey) (userLamports : Nat)
  (devKey : Pubkey) (devLamports : Nat) (message : List Nat)
  (clock : Option Int)

lemma systemTransfer_some {fromL toL amount : Nat} (h1 : amount ≤ fromL)
    (h2 : toL + amount < U64_MOD) :
    systemTransfer fromL toL amount = some (fromL - amount, toL + amount) := by
  unfold systemTransfer
  rw [if_neg (by omega), if_neg (by omega)]

lemma systemTransfer_overflow {fromL toL amount : Nat} (h1 : amount ≤ fromL)
    (h2 : U64_MOD ≤ toL + amount) :
    systemTransfer fromL toL amount = none := by
  unfold systemTransfer
  rw [if_neg (by omega), if_pos h2]

lemma post_message_case_empty (hl : message.length = 0) :
    post_message wall userKey userLamports devKey devLamports message clock =
      ⟨.error (.wall .EmptyMessage), userLamports, devLamports, wall⟩ := by
  unfold post_message
  rw [if_pos (by omega)]

lemma post_message_case_too_long (hl : 500 < message.length) :
    post_message wall userKey userLamports devKey devLamports message clock =
      ⟨.error (.wall .MessageTooLong), userLamports, devLamports, wall⟩ := by
  unfold post_message MAX_MESSAGE_LENGTH
  rw [if_neg (by omega), if_pos (by omega)]

lemma post_message_case_bad_dev (hl1 : 1 ≤ message.length)
    (hl2 : message.length ≤ 500) (hd : devKey ≠ wall.dev_wallet) :
    post_message wall userKey userLamports devKey devLamports message clock =
      ⟨.error (.wall .InvalidDevWallet), userLamports, devLamports, wall⟩ := by
  unfold post_message MAX_MESSAGE_LENGTH
  rw [if_neg (by omega), if_neg (by omega), if_pos (by simpa using hd)]

lemma post_message_case_poor (hl1 : 1 ≤ message.length)
    (hl2 : message.length ≤ 500) (hd : devKey = wall.dev_wallet)
    (hf : userLamports < MESSAGE_FEE_LAMPORTS + TRANSACTION_FEE_BUFFER) :
    post_message wall userKey userLamports devKey devLamports message clock =
      ⟨.error (.wall .InsufficientFunds), userLamports, devLamports, wall⟩ := by
  unfold post_message MAX_MESSAGE_LENGTH
  rw [if_neg (by omega), if_neg (by omega), if_neg (by simpa using hd),
    if_pos (by omega)]

lemma post_message_case_overflow (hl1 : 1 ≤ message.length)
    (hl2 : message.length ≤ 500) (hd : devKey = wall.dev_wallet)
    (hf : MESSAGE_FEE_LAMPORTS + TRANSACTION_FEE_BUFFER ≤ userLamports)
    (ho : U64_MOD ≤ devLamports + MESSAGE_FEE_LAMPORTS) :
    post_message wall userKey userLamports devKey devLamports message clock =
      ⟨.error .transferFailed, userLamports, devLamports, wall⟩ := by
  unfold post_message MAX_MESSAGE_LENGTH
  rw [if_neg (by omega), if_neg (by omega), if_neg (by simpa using hd),
    if_neg (by omega), systemTransfer_overflow (by simp only [MESSAGE_FEE_LAMPORTS, TRANSACTION_FEE_BUFFER] at hf ⊢; omega) ho]

lemma post_message_case_no_clock (hl1 : 1 ≤ message.length)
    (hl2 : message.length ≤ 500) (hd : devKey = wall.dev_wallet)
    (hf : MESSAGE_FEE_LAMPORTS + TRANSACTION_FEE_BUFFER ≤ userLamports)
    (ho : devLamports + MESSAGE_FEE_LAMPORTS < U64_MOD) (hc : clock = none) :
    post_message wall userKey userLamports devKey devLamports message clock =
      ⟨.error .clockFailed, userLamports - MESSAGE_FEE_LAMPORTS,
        devLamports + MESSAGE_FEE_LAMPORTS, wall⟩ := by
  unfold post_message MAX_MESSAGE_LENGTH
  rw [if_neg (by omega), if_neg (by omega), if_neg (by simpa using hd),
    if_neg (by omega),
    systemTransfer_some (by simp only [MESSAGE_FEE_LAMPORTS, TRANSACTION_FEE_BUFFER] at hf ⊢; omega) ho, hc]

lemma post_message_case_ok {t : Int} (hl1 : 1 ≤ message.length)
    (hl2 : message.length ≤ 500) (hd : devKey = wall.dev_wallet)
    (hf : MESSAGE_FEE_LAMPORTS + TRANSACTION_FEE_BUFFER ≤ userLamports)
    (ho : devLamports + MESSAGE_FEE_LAMPORTS < U64_MOD)
    (hc : clock = some t) :
    post_message wall userKey userLamports devKey devLamports message clock =
      ⟨.ok ⟨wall.wall_id, userKey, message, t⟩,
        userLamports - MESSAGE_FEE_LAMPORTS,
        devLamports + MESSAGE_FEE_LAMPORTS, wall⟩ := by
  unfold post_message MAX_MESSAGE_LENGTH
  rw [if_neg (by omega), if_neg (by omega), if_neg (by simpa using hd),
    if_neg (by omega),
    systemTransfer_some (by simp only [MESSAGE_FEE_LAMPORTS, TRANSACTION_FEE_BUFFER] at hf ⊢; omega) ho, hc]

end Characterisation

/-- C3: `post_message` succeeds only if the message byte length is
between 1 and 500 inclusive; a 0-byte message fails with
`EmptyMessage`, a message longer than 500 bytes fails with
`MessageTooLong`, and a message of exactly 500 bytes passes both length
checks (it can only fail for reasons other than its length). -/
theorem post_message_length_bounds (wall : Wall) (userKey : Pubkey)
    (userLamports : Nat) (devKey : Pubkey) (devLamports : Nat)
    (message : List Nat) (clock : Option Int) :
    (∀ ev, (post_message wall userKey userLamports devKey devLamports
        message clock).result = .ok ev →
      1 ≤ message.length ∧ message.length ≤ 500) ∧
    (message.length = 0 →
      (post_message wall userKey userLamports devKey devLamports message
        clock).result = .error (.wall .EmptyMessage)) ∧
    (500 < message.length →
      (post_message wall userKey userLamports devKey devLamports message
        clock).result = .error (.wall .MessageTooLong)) ∧
    (message.length = 500 →
      (post_message wall userKey userLamports devKey devLamports message
          clock).result ≠ .error (.wall .EmptyMessage) ∧
        (post_message wall userKey userLamports devKey devLamports message
          clock).result ≠ .error (.wall .MessageTooLong)) := by
  refine ⟨?_, ?_, ?_, ?_⟩
  · intro ev h
    by_cases h0 : message.length = 0
    · rw [post_message_case_empty wall userKey userLamports devKey
        devLamports message clock h0] at h
      simp at h
    · by_cases hL : 500 < message.length
      · rw [post_message_case_too_long wall userKey userLamports devKey
          devLamports message clock hL] at h
        simp at h
      · omega
  · intro h0
    rw [post_message_case_empty wall userKey userLamports devKey
      devLamports message clock h0]
  · intro hL
    rw [post_message_case_too_long wall userKey userLamports devKey
      devLamports message clock hL]
  · intro h500
    have hl1 : 1 ≤ message.length := by omega
    have hl2 : message.length ≤ 500 := by omega
    by_cases hdev : devKey = wall.dev_wallet
    · by_cases hf : MESSAGE_FEE_LAMPORTS + TRANSACTION_FEE_BUFFER ≤ userLamports
      · by_cases ho : U64_MOD ≤ devLamports + MESSAGE_FEE_LAMPORTS
        · rw [post_message_case_overflow wall userKey userLamports devKey
            devLamports message clock hl1 hl2 hdev hf ho]
          simp
        · rcases clock with _ | t
          · rw [post_message_case_no_clock wall userKey userLamports devKey
              devLamports message none hl1 hl2 hdev hf (by omega) rfl]
            simp
          · rw [post_message_case_ok wall userKey userLamports devKey
              devLamports message (some t) hl1 hl2 hdev hf (by omega) rfl]
            simp
      · rw [post_message_case_poor wall userKey userLamports devKey
          devLamports message clock hl1 hl2 hdev (by omega)]
        simp
    · rw [post_message_case_bad_dev wall userKey userLamports devKey
        devLamports message clock hl1 hl2 hdev]
      simp

/-- C3 witness: a 501-byte message is rejected with `MessageTooLong`. -/
theorem post_message_length_bounds_witness :
    (post_message ⟨1, 0, 255⟩ 2 51000000 1 0 (List.replicate 501 65)
      (some 0)).result = .error (.wall .MessageTooLong) :=
  (post_message_length_bounds ⟨1, 0, 255⟩ 2 51000000 1 0
    (List.replicate 501 65) (some 0)).2.2.1 (by rw [List.length_replicate]; omega)

/-- C5: given that the length checks and the dev-wallet check pass,
`post_message` fails with `InsufficientFunds` exactly when the poster's
balance is strictly below
`MESSAGE_FEE_LAMPORTS + TRANSACTION_FEE_BUFFER`; in particular a
balance of exactly that sum minus one fails and a balance of exactly
that sum passes the funds check. -/
theorem post_message_funds_threshold (wall : Wall) (userKey : Pubkey)
    (userLamports : Nat) (devKey : Pubkey) (devLamports : Nat)
    (message : List Nat) (clock : Option Int)
    (hlen1 : 1 ≤ message.length) (hlen2 : message.length ≤ 500)
    (hdev : devKey = wall.dev_wallet) :
    (post_message wall userKey userLamports devKey devLamports message
        clock).result = .error (.wall .InsufficientFunds) ↔
      userLamports < MESSAGE_FEE_LAMPORTS + TRANSACTION_FEE_BUFFER := by
  constructor
  · intro h
    by_contra hge
    push_neg at hge
    by_cases ho : U64_MOD ≤ devLamports + MESSAGE_FEE_LAMPORTS
    · rw [post_message_case_overflow wall userKey userLamports devKey
        devLamports message clock hlen1 hlen2 hdev hge ho] at h
      simp at h
    · rcases clock with _ | t
      · rw [post_message_case_no_clock wall userKey userLamports devKey
          devLamports message none hlen1 hlen2 hdev hge (by omega) rfl] at h
        simp at h
      · rw [post_message_case_ok wall userKey userLamports devKey
          devLamports message (some t) hlen1 hlen2 hdev hge (by omega) rfl] at h
        simp at h
  · intro hlt
    rw [post_message_case_poor wall userKey userLamports devKey devLamports
      message clock hlen1 hlen2 hdev hlt]

/-- C5 witness: with a valid one-byte message and matching dev wallet, a
balance of exactly `MESSAGE_FEE + TX_FEE_BUFFER - 1 = 50,999,999` is
rejected with `InsufficientFunds`. -/
theorem post_message_funds_threshold_witness :
    (post_message ⟨1, 0, 255⟩ 2 50999999 1 0 [65] (some 0)).result =
      .error (.wall .InsufficientFunds) :=
  (post_message_funds_threshold ⟨1, 0, 255⟩ 2 50999999 1 0 [65] (some 0)
    (by decide) (by decide) rfl).mpr (by decide)

/-- C2: every successful `post_message` decreases the poster's balance by
exactly `MESSAGE_FEE_LAMPORTS` and increases the dev wallet's balance
by exactly `MESSAGE_FEE_LAMPORTS`; no other amount is ever
transferred. -/
theorem post_message_success_exact_fee (wall : Wall) (userKey : Pubkey)
    (userLamports : Nat) (devKey : Pubkey) (devLamports : Nat)
    (message : List Nat) (clock : Option Int) (ev : MessagePosted)
    (h : (post_message wall userKey userLamports devKey devLamports message
      clock).result = .ok ev) :
    (post_message wall userKey userLamports devKey devLamports message
        clock).userLamports + MESSAGE_FEE_LAMPORTS = userLamports ∧
      (post_message wall userKey userLamports devKey devLamports message
        clock).devLamports = devLamports + MESSAGE_FEE_LAMPORTS := by
  by_cases h0 : message.length = 0
  · rw [post_message_case_empty wall userKey userLamports devKey devLamports
      message clock h0] at h
    simp at h
  by_cases hL : 500 < message.length
  · rw [post_message_case_too_long wall userKey userLamports devKey
      devLamports message clock hL] at h
    simp at h
  have hl1 : 1 ≤ message.length := by omega
  have hl2 : message.length ≤ 500 := by omega
  by_cases hdev : devKey = wall.dev_wallet
  · by_cases hf : MESSAGE_FEE_LAMPORTS + TRANSACTION_FEE_BUFFER ≤ userLamports
    · by_cases ho : U64_MOD ≤ devLamports + MESSAGE_FEE_LAMPORTS
      · rw [post_message_case_overflow wall userKey userLamports devKey
          devLamports message clock hl1 hl2 hdev hf ho] at h
        simp at h
      · rcases clock with _ | t
        · rw [post_message_case_no_clock wall userKey userLamports devKey
            devLamports message none hl1 hl2 hdev hf (by omega) rfl] at h
          simp at h
        · rw [post_message_case_ok wall userKey userLamports devKey
            devLamports message (some t) hl1 hl2 hdev hf (by omega) rfl]
          refine ⟨?_, rfl⟩
          show userLamports - MESSAGE_FEE_LAMPORTS + MESSAGE_FEE_LAMPORTS =
            userLamports
          omega
    · rw [post_message_case_poor wall userKey userLamports devKey
        devLamports message clock hl1 hl2 hdev (by omega)] at h
      simp at h
  · rw [post_message_case_bad_dev wall userKey userLamports devKey
      devLamports message clock hl1 hl2 hdev] at h
    simp at h

/-- C2 witness: a successful concrete post moves exactly the fee from a
poster with 51,000,000 lamports to the dev wallet with 0 lamports. -/
theorem post_message_success_exact_fee_witness :
    (post_message ⟨1, 0, 255⟩ 2 51000000 1 0 [65]
        (some 0)).userLamports + MESSAGE_FEE_LAMPORTS = 51000000 ∧
      (post_message ⟨1, 0, 255⟩ 2 51000000 1 0 [65]
        (some 0)).devLamports = 0 + MESSAGE_FEE_LAMPORTS :=
  post_message_success_exact_fee ⟨1, 0, 255⟩ 2 51000000 1 0 [65] (some 0)
    ⟨0, 2, [65], 0⟩ (by decide)

/-- C1: every failing `post_message` is atomic: the committed
transaction state keeps both balances and the wall unchanged and emits
no event; moreover every error other than the post-transfer clock
failure leaves even the handler's uncommitted balances untouched. -/
theorem post_message_failure_atomic (wall : Wall) (userKey : Pubkey)
    (userLamports : Nat) (devKey : Pubkey) (devLamports : Nat)
    (message : List Nat) (clock : Option Int) (e : PostError)
    (h : (post_message wall userKey userLamports devKey devLamports message
      clock).result = .error e) :
    postMessageCommit wall userKey userLamports devKey devLamports message
        clock = ⟨userLamports, devLamports, wall, []⟩ ∧
      (e ≠ PostError.clockFailed →
        (post_message wall userKey userLamports devKey devLamports message
            clock).userLamports = userLamports ∧
          (post_message wall userKey userLamports devKey devLamports message
            clock).devLamports = devLamports) := by
  constructor
  · unfold postMessageCommit
    simp only [h]
  · intro hne
    by_cases h0 : message.length = 0
    · rw [post_message_case_empty wall userKey userLamports devKey
        devLamports message clock h0]
      exact ⟨rfl, rfl⟩
    by_cases hL : 500 < message.length
    · rw [post_message_case_too_long wall userKey userLamports devKey
        devLamports message clock hL]
      exact ⟨rfl, rfl⟩
    have hl1 : 1 ≤ message.length := by omega
    have hl2 : message.length ≤ 500 := by omega
    by_cases hdev : devKey = wall.dev_wallet
    · by_cases hf : MESSAGE_FEE_LAMPORTS + TRANSACTION_FEE_BUFFER ≤ userLamports
      · by_cases ho : U64_MOD ≤ devLamports + MESSAGE_FEE_LAMPORTS
        · rw [post_message_case_overflow wall userKey userLamports devKey
            devLamports message clock hl1 hl2 hdev hf ho]
          exact ⟨rfl, rfl⟩
        · rcases clock with _ | t
          · rw [post_message_case_no_clock wall userKey userLamports devKey
              devLamports message none hl1 hl2 hdev hf (by omega) rfl] at h
            simp at h
            exact absurd h.symm hne
          · rw [post_message_case_ok wall userKey userLamports devKey
              devLamports message (some t) hl1 hl2 hdev hf (by omega) rfl] at h
            simp at h
      · rw [post_message_case_poor wall userKey userLamports devKey
          devLamports message clock hl1 hl2 hdev (by omega)]
        exact ⟨rfl, rfl⟩
    · rw [post_message_case_bad_dev wall userKey userLamports devKey
        devLamports message clock hl1 hl2 hdev]
      exact ⟨rfl, rfl⟩

/-- C1 witness: a failing concrete post (empty message) leaves the
committed state unchanged, emits nothing, and moves no lamports. -/
theorem post_message_failure_atomic_witness :
    postMessageCommit ⟨1, 0, 255⟩ 2 51000000 1 0 [] (some 0) =
        ⟨51000000, 0, ⟨1, 0, 255⟩, []⟩ ∧
      (PostError.wall WallError.EmptyMessage ≠ PostError.clockFailed →
        (post_message ⟨1, 0, 255⟩ 2 51000000 1 0 []
            (some 0)).userLamports = 51000000 ∧
          (post_message ⟨1, 0, 255⟩ 2 51000000 1 0 []
            (some 0)).devLamports = 0) :=
  post_message_failure_atomic ⟨1, 0, 255⟩ 2 51000000 1 0 [] (some 0)
    (.wall .EmptyMessage) (by decide)

/-! PDA derivation lemmas. -/

lemma findProgramAddressAux_spec (H : List (List Nat) → Option Nat)
    (seeds : List (List Nat)) :
    ∀ n addr b, findProgramAddressAux H seeds n = some (addr, b) →
      createProgramAddress H seeds b = some addr ∧ b < n := by
  intro n
  induction n with
  | zero => intro addr b h; simp [findProgramAddressAux] at h
  | succ m ih =>
    intro addr b h
    unfold findProgramAddressAux at h
    cases hC : createProgramAddress H seeds m with
    | some a =>
      rw [hC] at h
      obtain ⟨ha, hb⟩ := by simpa using h
      subst ha hb
      exact ⟨hC, Nat.lt_succ_self m⟩
    | none =>
      rw [hC] at h
      obtain ⟨h1, h2⟩ := ih addr b h
      exact ⟨h1, Nat.lt_succ_of_lt h2⟩

lemma leBytes_length (n len : Nat) : (leBytes n len).length = len := by
  unfold leBytes
  rw [List.length_map, List.length_range]

/-- C6: a successful `InitializeWall(owner, wall_id)` stores exactly
`{dev_wallet = owner, wall_id = wall_id, bump = the derived nonce}` in
the wall record at the derived address and emits a `WallInitialized`
event with that same wall id and owner. -/
theorem initialize_wall_state_and_event (H : List (List Nat) → Option Nat)
    (devWallet : Pubkey) (wallId : Nat) (addr : Nat) (wall : Wall)
    (ev : WallInitialized)
    (h : initializeWallFull H devWallet wallId = some (addr, wall, ev)) :
    wall.dev_wallet = devWallet ∧ wall.wall_id = wallId ∧
      findProgramAddress H (wallSeeds devWallet wallId) =
        some (addr, wall.bump) ∧
      ev = ⟨wallId, devWallet⟩ := by
  unfold initializeWallFull at h
  cases hF : findProgramAddress H (wallSeeds devWallet wallId) with
  | none => rw [hF] at h; simp at h
  | some ab =>
    obtain ⟨a, b⟩ := ab
    rw [hF] at h
    unfold initialize_wall at h
    obtain ⟨ha, hw, he⟩ := by simpa using h
    subst ha hw he
    exact ⟨rfl, rfl, rfl, rfl⟩

/-- C6 witness: with a hash map that accepts the first candidate, the
instruction stores `{owner, wall_id, bump 255}` and emits the event. -/
theorem initialize_wall_state_and_event_witness :
    (Wall.mk 1 5 255).dev_wallet = 1 ∧ (Wall.mk 1 5 255).wall_id = 5 ∧
      findProgramAddress (fun _ => some 7) (wallSeeds 1 5) =
        some (7, (Wall.mk 1 5 255).bump) ∧
      WallInitialized.mk 5 1 = ⟨5, 1⟩ :=
  initialize_wall_state_and_event (fun _ => some 7) 1 5 7 ⟨1, 5, 255⟩
    ⟨5, 1⟩ rfl

/-- C7: the wall address is derived from exactly the seed byte strings
`"wall"`, the 32-byte owner key, and the 8-byte little-endian wall id,
plus a nonce below 256; and the stored bump reproduces the derived
address through a single `create_program_address` call, so the
`PostMessage` seeds/bump account check passes for the stored fields
without re-searching the nonce space. -/
theorem wall_pda_seeds_exact (H : List (List Nat) → Option Nat)
    (owner : Pubkey) (wallId : Nat) (addr bump : Nat)
    (h : findProgramAddress H (wallSeeds owner wallId) = some (addr, bump)) :
    wallSeeds owner wallId =
        ["wall".data.map Char.toNat, pubkeyToBytes owner,
          u64ToLeBytes wallId] ∧
      (pubkeyToBytes owner).length = 32 ∧
      (u64ToLeBytes wallId).length = 8 ∧
      bump < 256 ∧
      createProgramAddress H (wallSeeds owner wallId) bump = some addr ∧
      postWallAddressCheck H ⟨owner, wallId, bump⟩ addr = true := by
  obtain ⟨hc, hb⟩ := findProgramAddressAux_spec H (wallSeeds owner wallId)
    256 addr bump h
  refine ⟨rfl, leBytes_length owner 32, leBytes_length wallId 8, hb, hc, ?_⟩
  unfold postWallAddressCheck
  simp only [wallSeeds] at hc ⊢
  rw [hc]
  simp

/-- C7 witness: a concrete derivation at owner 1, wall id 5. -/
theorem wall_pda_seeds_exact_witness :
    wallSeeds 1 5 =
        ["wall".data.map Char.toNat, pubkeyToBytes 1, u64ToLeBytes 5] ∧
      (pubkeyToBytes 1).length = 32 ∧ (u64ToLeBytes 5).length = 8 ∧
      255 < 256 ∧
      createProgramAddress (fun _ => some 7) (wallSeeds 1 5) 255 = some 7 ∧
      postWallAddressCheck (fun _ => some 7) ⟨1, 5, 255⟩ 7 = true :=
  wall_pda_seeds_exact (fun _ => some 7) 1 5 7 255 rfl

/-- C4 counterexample: a `PostMessage` whose supplied dev-wallet key (2)
differs from the wall's stored dev wallet (1) fails during Anchor
account validation with the `address = wall.dev_wallet` constraint
error, not with the handler's `InvalidDevWallet` error. -/
theorem wrong_dev_wallet_constraint_cex :
    (2 : Pubkey) ≠ (Wall.mk 1 0 255).dev_wallet ∧
      (postMessageFull (fun _ => some 7) 7 ⟨1, 0, 255⟩ true 3 100000000 2 0
        [65] (some 0)).result = .error .constraintAddress ∧
      (postMessageFull (fun _ => some 7) 7 ⟨1, 0, 255⟩ true 3 100000000 2 0
          [65] (some 0)).result ≠
        .error (.program (.wall .InvalidDevWallet)) := by
  refine ⟨by decide, by decide, by decide⟩

/-- C4 (amended): whenever the supplied dev-wallet key differs from the
wall's stored dev wallet, the full `PostMessage` instruction fails and
no lamports move; when the wall address check and the signer check
pass, the error is Anchor's address-constraint violation, raised during
account validation before the handler (whose `InvalidDevWallet` check
is therefore unreachable). -/
theorem wrong_dev_wallet_rejected (H : List (List Nat) → Option Nat)
    (wallAddr : Nat) (wall : Wall) (userIsSigner : Bool) (userKey : Pubkey)
    (userLamports : Nat) (devKey : Pubkey) (devLamports : Nat)
    (message : List Nat) (clock : Option Int)
    (hne : devKey ≠ wall.dev_wallet) :
    (∃ e, (postMessageFull H wallAddr wall userIsSigner userKey userLamports
        devKey devLamports message clock).result = .error e) ∧
      (postMessageFull H wallAddr wall userIsSigner userKey userLamports
        devKey devLamports message clock).userLamports = userLamports ∧
      (postMessageFull H wallAddr wall userIsSigner userKey userLamports
        devKey devLamports message clock).devLamports = devLamports ∧
      (postWallAddressCheck H wall wallAddr = true → userIsSigner = true →
        (postMessageFull H wallAddr wall userIsSigner userKey userLamports
          devKey devLamports message clock).result =
          .error .constraintAddress) := by
  unfold postMessageFull
  split_ifs with h1 h2
  · exact ⟨⟨.constraintAddress, rfl⟩, rfl, rfl, fun _ _ => rfl⟩
  · exact ⟨⟨.constraintSigner, rfl⟩, rfl, rfl, fun _ hs => absurd hs h2⟩
  · exact ⟨⟨.constraintSeeds, rfl⟩, rfl, rfl, fun hc _ => absurd hc h1⟩

/-- C4 witness for the amended claim, at the counterexample's input. -/
theorem wrong_dev_wallet_rejected_witness :
    (∃ e, (postMessageFull (fun _ => some 7) 7 ⟨1, 0, 255⟩ true 3 100000000
        2 0 [65] (some 0)).result = .error e) ∧
      (postMessageFull (fun _ => some 7) 7 ⟨1, 0, 255⟩ true 3 100000000 2 0
        [65] (some 0)).userLamports = 100000000 ∧
      (postMessageFull (fun _ => some 7) 7 ⟨1, 0, 255⟩ true 3 100000000 2 0
        [65] (some 0)).devLamports = 0 ∧
      (postWallAddressCheck (fun _ => some 7) ⟨1, 0, 255⟩ 7 = true →
        true = true →
        (postMessageFull (fun _ => some 7) 7 ⟨1, 0, 255⟩ true 3 100000000 2
          0 [65] (some 0)).result = .error .constraintAddress) :=
  wrong_dev_wallet_rejected (fun _ => some 7) 7 ⟨1, 0, 255⟩ true 3 100000000
    2 0 [65] (some 0) (by decide)

end ManifestWall
